import Mathlib

/-!
Shallow embedding of `ably/realtime/connection.py` (ConnectionManager /
Connection): the connection state machine, its pending operations
(connect / close / ping futures), transport ownership, timeout and retry
behaviour, and the protocol-message dispatch.

Modelling conventions:
* The code is single-threaded cooperative `asyncio`; every `async`
  method is embedded as a pure function on the manager state.  The
  outcome of each `await` point (did the awaited future resolve, raise,
  get cancelled, or did a `wait_for` time out) is passed in as an
  explicit oracle argument, so one Lean function application corresponds
  to one complete run of the Python coroutine under one schedule.
* `asyncio.Future` is embedded as `FutureState` with the documented
  asyncio semantics: `set_result` / `set_exception` succeed only on a
  pending future and raise `InvalidStateError` otherwise; `cancelled()`
  is true only in the cancelled state; `asyncio.wait_for` cancels the
  awaited future when it times out (unless shielded).
* A raised Python exception is the `Option PyError` component of each
  function's result; the `CMState` component carries the side effects
  performed before the raise (Python mutations are not rolled back).
* Ghost observation fields (`attemptTasks`, `transportConnects`,
  `retriesScheduled`, `sentFrames`, `connectResolutions`, `forwarded`)
  record exactly the external calls the code makes
  (`asyncio.create_task`, `transport.connect()`, scheduling
  `retry_connection_attempt`, `transport.send`, resolving the connect
  future, forwarding to the channel layer); they are written only at the
  corresponding call sites.
-/

/-- ConnectionState, line for line from the `ConnectionState` enum. -/
inductive ConnectionState
  | initialized
  | connecting
  | connected
  | disconnected
  | closing
  | closed
  | failed
deriving DecidableEq, Repr

/-- AblyException `(message, status_code, code)`; `isAuth` marks the
`AblyAuthException` subclass used for fatal error frames. -/
structure AblyException where
  message : String
  statusCode : Nat
  code : Nat
  isAuth : Bool
deriving DecidableEq, Repr

/-- Python exceptions that the embedded code can raise: an
`AblyException` (or its `AblyAuthException` subclass), and the runtime
errors `asyncio.InvalidStateError`, `AttributeError`, `TypeError`,
`asyncio.CancelledError`, `KeyError`. -/
inductive PyError
  | ably (e : AblyException)
  | invalidState
  | attributeError
  | typeError
  | cancelledError
  | keyError
deriving DecidableEq, Repr

/-- State of one `asyncio.Future`. -/
inductive FutureState
  | pending
  | result
  | exception (e : PyError)
  | cancelled
deriving DecidableEq, Repr

/-- Future.cancelled(). -/
def FutureState.isCancelled : FutureState → Bool
  | .cancelled => true
  | _ => false

/-- Future.set_result(None): raises `InvalidStateError` unless the
future is pending (asyncio semantics). -/
def FutureState.set_result : FutureState → Except PyError FutureState
  | .pending => .ok .result
  | _ => .error .invalidState

/-- Future.set_exception(e): raises `InvalidStateError` unless the
future is pending (asyncio semantics). -/
def FutureState.set_exception (fut : FutureState) (e : PyError) : Except PyError FutureState :=
  match fut with
  | .pending => .ok (.exception e)
  | _ => .error .invalidState

/-- ConnectionStateChange dataclass. -/
structure ConnectionStateChange where
  previous : ConnectionState
  current : ConnectionState
  reason : Option PyError
deriving DecidableEq, Repr

/-- Protocol message actions handled by `on_protocol_message`
(`ProtocolMessageAction` in websockettransport). -/
inductive PMAction
  | connected
  | error
  | closed
  | heartbeat
  | attached
  | detached
  | message
deriving DecidableEq, Repr

/-- Fields of an `error` protocol frame: `error.message`,
`error.statusCode`, `error.code`, `error.nonfatal`. -/
structure ErrorInfo where
  message : String
  statusCode : Nat
  code : Nat
  nonfatal : Bool
deriving DecidableEq, Repr

/-- A protocol frame: a mapping with an `action` field plus the
action-specific fields used by this core (`error`, `id`). -/
structure ProtocolMessage where
  action : PMAction
  error : Option ErrorInfo := none
  id : Option Nat := none
deriving DecidableEq, Repr

/-- The transport handle owned by the manager (`WebSocketTransport`),
modelled at its interface: `is_connected` (set by the manager),
`dispose()` marks it disposed, `ws_connect_task` may expose an
outstanding background connect task. -/
structure Transport where
  isConnected : Bool
  disposed : Bool
  wsConnectTask : Bool
deriving DecidableEq, Repr

/-- Client options consumed by this core (milliseconds). -/
structure Options where
  realtime_request_timeout : Rat
  disconnected_retry_timeout : Rat
  auto_connect : Bool
deriving DecidableEq, Repr

/-- ConnectionManager mutable state.  The first block mirrors the
fields assigned in `__init__` (`__ping_id` is an attribute that does not
exist until the first ping writes it, hence `Option`); `emitted` is the
stream of `ConnectionStateChange` events `_emit`ted on the
`connectionstate` channel; the remaining fields are ghost observations
of external calls as described in the header. -/
structure CMState where
  options : Options
  state : ConnectionState
  connectedFuture : Option FutureState
  closedFuture : Option FutureState
  pingFuture : Option FutureState
  pingId : Option Nat
  transport : Option Transport
  emitted : List ConnectionStateChange
  attemptTasks : Nat
  transportConnects : Nat
  retriesScheduled : Nat
  sentFrames : List ProtocolMessage
  connectResolutions : List (Option PyError)
  forwarded : List ProtocolMessage
deriving DecidableEq, Repr

/-- ConnectionManager.__init__(realtime, initial_state): the connect
future exists from the start exactly when the initial state is
`connecting` (auto_connect). -/
def cm_init (opts : Options) (initial_state : ConnectionState) : CMState :=
  { options := opts
    state := initial_state
    connectedFuture := if initial_state = ConnectionState.connecting then some .pending else none
    closedFuture := none
    pingFuture := none
    pingId := none
    transport := none
    emitted := []
    attemptTasks := 0
    transportConnects := 0
    retriesScheduled := 0
    sentFrames := []
    connectResolutions := []
    forwarded := [] }

/-- ConnectionManager.enact_state_change(state, reason=None): the single
mutation point for `__state`; captures the previous value, stores the
new one and emits a `ConnectionStateChange`. -/
def enact_state_change (cm : CMState) (state : ConnectionState) (reason : Option PyError) :
    CMState :=
  { cm with
    state := state
    emitted := cm.emitted ++ [⟨cm.state, state, reason⟩] }

/-- transport.dispose() at a site that does not clear `self.transport`
afterwards: marks the handle disposed. -/
def disposeTransport (cm : CMState) : CMState :=
  match cm.transport with
  | some t => { cm with transport := some { t with disposed := true } }
  | none => cm

/-- ConnectionManager.on_protocol_message(msg).  The Python body is a
chain of `if action == ...` tests against pairwise-distinct actions, so
a `match` on the action is an exact embedding.  The `error` branch
re-raises the constructed `AblyAuthException` after its side effects;
`closed` dereferences `self.__closed_future` unconditionally. -/
def on_protocol_message (cm : CMState) (msg : ProtocolMessage) : CMState × Option PyError :=
  match msg.action with
  | .connected =>
    -- if self.transport: self.transport.is_connected = True
    let cm := match cm.transport with
      | some t => { cm with transport := some { t with isConnected := true } }
      | none => cm
    match cm.connectedFuture with
    | some fut =>
      if fut.isCancelled then
        -- 'if not cancelled()' guard fails: skip set_result, clear the field
        let cm := { cm with connectedFuture := none }
        (enact_state_change cm ConnectionState.connected none, none)
      else
        match fut.set_result with
        | .error e => (cm, some e)
        | .ok _ =>
          let cm := { cm with
            connectedFuture := none
            connectResolutions := cm.connectResolutions ++ [none] }
          (enact_state_change cm ConnectionState.connected none, none)
    | none =>
      -- log.warn('CONNECTED message received but connected_future not set')
      (enact_state_change cm ConnectionState.connected none, none)
  | .error =>
    match msg.error with
    | none => (cm, some .keyError)  -- msg["error"]
    | some err =>
      if err.nonfatal = false then
        let exc : AblyException :=
          { message := err.message, statusCode := err.statusCode, code := err.code,
            isAuth := true }
        let cm := enact_state_change cm ConnectionState.failed (some (.ably exc))
        match cm.connectedFuture with
        | some fut =>
          match fut.set_exception (.ably exc) with
          | .error e => (cm, some e)
          | .ok _ =>
            let cm := { cm with
              connectedFuture := none
              connectResolutions := cm.connectResolutions ++ [some (.ably exc)] }
            (disposeTransport cm, some (.ably exc))
        | none => (disposeTransport cm, some (.ably exc))
      else
        (cm, none)
  | .closed =>
    -- if self.transport: await self.transport.dispose()
    let cm := disposeTransport cm
    match cm.closedFuture with
    | none => (cm, some .attributeError)  -- None.set_result(None)
    | some fut =>
      match fut.set_result with
      | .error e => (cm, some e)
      | .ok fut' => ({ cm with closedFuture := some fut' }, none)
  | .heartbeat =>
    match cm.pingFuture with
    | none => (cm, none)
    | some fut =>
      match cm.pingId with
      | none => (cm, some .attributeError)  -- self.__ping_id never assigned
      | some pid =>
        if some pid = msg.id then
          if fut.isCancelled then
            ({ cm with pingFuture := none }, none)
          else
            match fut.set_result with
            | .error e => (cm, some e)
            | .ok _ => ({ cm with pingFuture := none }, none)
        else
          (cm, none)
  | .attached => ({ cm with forwarded := cm.forwarded ++ [msg] }, none)
  | .detached => ({ cm with forwarded := cm.forwarded ++ [msg] }, none)
  | .message => ({ cm with forwarded := cm.forwarded ++ [msg] }, none)

/-- Exception built in `connect_impl`'s timeout branch:
`AblyException("Timeout waiting for realtime connection", 504, 50003)`. -/
def connectTimeoutError : AblyException :=
  { message := "Timeout waiting for realtime connection", statusCode := 504, code := 50003,
    isAuth := false }

/-- Exception built when a connection attempt is cancelled
(`on_connection_attempt_done` and `_connect`'s `CancelledError` handler). -/
def cancelledTimeoutError : AblyException :=
  { message := "Connection cancelled due to request timeout. Attempting reconnection...",
    statusCode := 504, code := 50003, isAuth := false }

/-- Exception raised by `close()` when the close handshake times out. -/
def closeTimeoutError : AblyException :=
  { message := "Timeout waiting for connection close response", statusCode := 504, code := 50003,
    isAuth := false }

/-- Exception raised by `ping()` in an invalid state (arguments exactly
as in the source: status_code 40000, code 400). -/
def pingInvalidStateError : AblyException :=
  { message := "Cannot send ping request. Calling ping in invalid state",
    statusCode := 40000, code := 400, isAuth := false }

/-- Exception raised by `ping()` when the heartbeat response times out. -/
def pingTimeoutError : AblyException :=
  { message := "Timeout waiting for ping response", statusCode := 504, code := 50003,
    isAuth := false }

/-- Oracle for one `await future` point: the future eventually resolved
ok, resolved with an exception, or the awaiting coroutine was
cancelled. -/
inductive AwaitOutcome
  | ok
  | exc (e : PyError)
  | cancelled
deriving DecidableEq, Repr

/-- Oracle for `asyncio.wait_for(asyncio.shield(fut), timeout)` in
`connect_impl`: the future resolved ok / with an exception before the
deadline, or the deadline elapsed first (the shield keeps the inner
future uncancelled). -/
inductive WaitForResult
  | resolvedOk
  | resolvedExc (e : PyError)
  | timedOut
deriving DecidableEq, Repr

/-- Outcome of the `_connect` task observed by its done-callback
(`task.exception()` raises `CancelledError` for a cancelled task). -/
inductive TaskResult
  | ok
  | exc (e : PyError)
  | cancelled
deriving DecidableEq, Repr

/-- ConnectionManager.try_connect(): `asyncio.create_task(self._connect())`
plus registering `on_connection_attempt_done`; the ghost counter records
the task creation, the task body runs later. -/
def try_connect (cm : CMState) : CMState :=
  { cm with attemptTasks := cm.attemptTasks + 1 }

/-- ConnectionManager.connect(): the synchronous prefix up to
`await self.__connected_future` (an `asyncio.Future` is always truthy,
`None` is falsy, so `not self.__connected_future` is `isNone`). -/
def connect_call (cm : CMState) : CMState :=
  if cm.connectedFuture.isNone then
    try_connect { cm with connectedFuture := some .pending }
  else
    cm

/-- Synchronous prefixes of `n` successive `connect()` calls (cooperative
scheduling: each caller runs to its `await` before the next). -/
def connect_calls : Nat → CMState → CMState
  | 0, cm => cm
  | n + 1, cm => connect_calls n (connect_call cm)

/-- ConnectionManager.connect_impl(): creates a fresh transport handle,
triggers its connect, then waits (shielded) for the connected future
with `realtime_request_timeout`.  On timeout: transition to
`disconnected` with a timeout error, dispose the transport (the source's
`self.tranpsort = None` assigns a misspelled attribute, so
`self.transport` is NOT cleared), fail the connect future with the same
error and re-raise it. -/
def connect_impl (cm : CMState) (w : WaitForResult) : CMState × Option PyError :=
  let cm := { cm with
    transport := some { isConnected := false, disposed := false, wsConnectTask := false }
    transportConnects := cm.transportConnects + 1 }
  match w with
  | .resolvedOk => (cm, none)
  | .resolvedExc e => (cm, some e)
  | .timedOut =>
    let exc : PyError := .ably connectTimeoutError
    let cm := enact_state_change cm ConnectionState.disconnected (some exc)
    let cm := disposeTransport cm
    match cm.connectedFuture with
    | none => (cm, some .attributeError)  -- None.set_exception
    | some fut =>
      match fut.set_exception exc with
      | .error e => (cm, some e)
      | .ok fut' =>
        ({ cm with
            connectedFuture := some fut'
            connectResolutions := cm.connectResolutions ++ [some exc] }, some exc)

/-- ConnectionManager._connect(): no-op when already `connected`; when
`connecting`, await the (possibly freshly created) connect future,
mapping `CancelledError` to an `AblyException`; otherwise transition to
`connecting` and run `connect_impl`. -/
def _connect (cm : CMState) (existingAwait : AwaitOutcome) (w : WaitForResult) :
    CMState × Option PyError :=
  if cm.state = ConnectionState.connected then
    (cm, none)
  else if cm.state = ConnectionState.connecting then
    let cm := if cm.connectedFuture.isNone then { cm with connectedFuture := some .pending }
              else cm
    match existingAwait with
    | .ok => (cm, none)
    | .exc e => (cm, some e)
    | .cancelled => (cm, some (.ably cancelledTimeoutError))
  else
    let cm := enact_state_change cm ConnectionState.connecting none
    connect_impl cm w

/-- asyncio.create_task(self.retry_connection_attempt()): the tail of
`on_connection_attempt_done`, reached on every path of the handler that
does not return early or raise. -/
def scheduleRetry (cm : CMState) : CMState :=
  { cm with retriesScheduled := cm.retriesScheduled + 1 }

/-- ConnectionManager.on_connection_attempt_done(task): maps a cancelled
task to `cancelledTimeoutError`; returns on success; returns without
doing anything when the state is already terminal (`closed`/`failed`);
otherwise (unless already `disconnected`) fails and clears the connect
future and transitions to `disconnected`; finally schedules
`retry_connection_attempt` (skipped only by the early returns or by an
`InvalidStateError` escaping from `set_exception`). -/
def on_connection_attempt_done (cm : CMState) (t : TaskResult) : CMState × Option PyError :=
  let exception : Option PyError :=
    match t with
    | .ok => none
    | .exc e => some e
    | .cancelled => some (.ably cancelledTimeoutError)
  match exception with
  | none => (cm, none)
  | some e =>
    if cm.state = ConnectionState.closed ∨ cm.state = ConnectionState.failed then
      (cm, none)
    else
      if cm.state ≠ ConnectionState.disconnected then
        match cm.connectedFuture with
        | some fut =>
          match fut.set_exception e with
          | .error e' => (cm, some e')
          | .ok _ =>
            let cm := enact_state_change
              { cm with
                connectedFuture := none
                connectResolutions := cm.connectResolutions ++ [some e] }
              ConnectionState.disconnected (some e)
            (scheduleRetry cm, none)
        | none =>
          (scheduleRetry (enact_state_change cm ConnectionState.disconnected (some e)), none)
      else
        (scheduleRetry cm, none)

/-- ConnectionManager.retry_connection_attempt(): sleeps
`disconnected_retry_timeout / 1000` seconds, then `try_connect()`.  The
first component is the slept duration in seconds. -/
def retry_connection_attempt (cm : CMState) : Rat × CMState :=
  (cm.options.disconnected_retry_timeout / 1000, try_connect cm)

/-- Heartbeat frame sent by ping:
`{"action": HEARTBEAT, "id": self.__ping_id}`. -/
def heartbeatMsg (pid : Nat) : ProtocolMessage :=
  { action := PMAction.heartbeat, id := some pid }

/-- Branch taken by one `ping()` call's synchronous prefix. -/
inductive PingBranch
  | awaitExisting
  | invalidState (e : AblyException)
  | sentHeartbeat (pid : Nat)
deriving DecidableEq, Repr

/-- ConnectionManager.ping(): the synchronous prefix up to the first
await.  With a ping future already outstanding the call only awaits it.
Otherwise the code FIRST assigns `self.__ping_future = asyncio.Future()`
and only then checks the state: in `connected`/`connecting` it records a
fresh correlation id and sends the heartbeat frame; in any other state
it raises the invalid-state `AblyException` synchronously, leaving the
just-created ping future in place. -/
def ping_sync (cm : CMState) (newId : Nat) : CMState × PingBranch :=
  match cm.pingFuture with
  | some _ => (cm, .awaitExisting)
  | none =>
    let cm := { cm with pingFuture := some .pending }
    if cm.state = ConnectionState.connected ∨ cm.state = ConnectionState.connecting then
      let cm := { cm with
        pingId := some newId
        sentFrames := cm.sentFrames ++ [heartbeatMsg newId] }
      (cm, .sentHeartbeat newId)
    else
      (cm, .invalidState pingInvalidStateError)

/-- Outcome of `await self.__connected_future` in `close()`'s
`connecting` branch: the raised exception if any (`await None` is a
`TypeError`; awaiting a cancelled future raises `CancelledError`); the
await itself does not change the manager state. -/
def close_connecting_wait (cm : CMState) (connectedAwait : AwaitOutcome) : Option PyError :=
  if cm.state = ConnectionState.connecting then
    match cm.connectedFuture with
    | none => some .typeError
    | some _ =>
      match connectedAwait with
      | .ok => none
      | .exc e => some e
      | .cancelled => some .cancelledError
  else none

/-- The close handshake wait:
`await self.transport.close()` followed by
`await asyncio.wait_for(self.__closed_future, self.__timeout_in_secs)`.
`closedFrame` is what the transport's reader task delivers to
`on_protocol_message` while `close()` is suspended here (an exception
raised inside the reader task stays there).  After that, the wait
resolves according to the close future: if it is still pending, the
deadline elapses, `wait_for` cancels the future, and the code raises the
close-timeout `AblyException`. -/
def close_await_handshake (cm : CMState) (closedFrame : Option ProtocolMessage) :
    CMState × Option PyError :=
  let cmA := match closedFrame with
    | some msg => (on_protocol_message cm msg).1
    | none => cm
  match cmA.closedFuture with
  | some .result => (cmA, none)
  | some (.exception e) => (cmA, some e)
  | some .cancelled => (cmA, some .cancelledError)
  | some .pending =>
    ({ cmA with closedFuture := some .cancelled }, some (.ably closeTimeoutError))
  | none => (cmA, some .typeError)

/-- ConnectionManager.close().  Terminal or initial states transition
straight to `closed`; `disconnected` with a live transport disposes it
and transitions to `closed`; otherwise, after the `connecting` wait, the
code transitions to `closing`, creates the close future, runs the
handshake only when the transport handle exists and reports itself
connected, and — only when no exception was raised — ends with the
transition to `closed` (followed by awaiting `transport.ws_connect_task`
when exposed, which has no observable state effect here).  A handshake
timeout therefore raises and skips the final `closed` transition. -/
def close_fn (cm : CMState) (connectedAwait : AwaitOutcome) (closedFrame : Option ProtocolMessage) :
    CMState × Option PyError :=
  if cm.state = ConnectionState.closed ∨ cm.state = ConnectionState.initialized ∨
      cm.state = ConnectionState.failed then
    (enact_state_change cm ConnectionState.closed none, none)
  else
    match (if cm.state = ConnectionState.disconnected then cm.transport else none) with
    | some _ =>
      -- await transport.dispose(); self.transport = None; enact CLOSED; return
      (enact_state_change { cm with transport := none } ConnectionState.closed none, none)
    | none =>
      -- log.warning when state != connected; then the connecting wait
      match close_connecting_wait cm connectedAwait with
      | some e => (cm, some e)
      | none =>
        let cm := enact_state_change cm ConnectionState.closing none
        let cm := { cm with closedFuture := some .pending }
        let waited : CMState × Option PyError :=
          if (match cm.transport with | some t => t.isConnected | none => false) then
            close_await_handshake cm closedFrame
          else
            -- log.warning('... called close with no connected transport')
            (cm, none)
        match waited.2 with
        | some e => waited
        | none => (enact_state_change waited.1 ConnectionState.closed none, none)

/-! ## Trace chaining (claim C8 infrastructure)

`chainedB` checks that every `ConnectionStateChange` in a list has its
`previous` field equal to the `current` field of the change right before
it.  `chainInv` additionally ties the last emitted `current` to the
manager's stored state, which is what makes the property inductive over
`enact_state_change`. -/

def chainedB : List ConnectionStateChange → Bool
  | [] => true
  | [_] => true
  | a :: b :: rest => (b.previous == a.current) && chainedB (b :: rest)

def chainInv (cm : CMState) : Bool :=
  chainedB cm.emitted &&
    (match cm.emitted.getLast? with
     | some c => c.current == cm.state
     | none => true)

theorem chainedB_append (l : List ConnectionStateChange) (c : ConnectionStateChange) :
    chainedB (l ++ [c]) =
      (chainedB l &&
        (match l.getLast? with
         | some last => c.previous == last.current
         | none => true)) := by
  induction l with
  | nil => simp [chainedB]
  | cons a l ih =>
    cases l with
    | nil => simp [chainedB]
    | cons b rest =>
      simp only [List.cons_append, chainedB, List.getLast?_cons_cons, Bool.and_assoc]
      congr 1

/-- The single mutation point preserves the chain invariant: the
appended change's `previous` is the stored state, which the invariant
equates with the last emitted `current`. -/
theorem chainInv_enact (cm : CMState) (s : ConnectionState) (r : Option PyError)
    (h : chainInv cm = true) : chainInv (enact_state_change cm s r) = true := by
  unfold chainInv at h ⊢
  unfold enact_state_change
  simp only [chainedB_append, List.getLast?_concat]
  simp only [Bool.and_eq_true] at h ⊢
  refine ⟨⟨h.1, ?_⟩, by simp⟩
  have h2 := h.2
  rcases hl : cm.emitted.getLast? with _ | c
  · simp
  · rw [hl] at h2
    simp only [beq_iff_eq] at h2 ⊢
    exact h2.symm

/-- Any state update that touches neither `emitted` nor `state`
preserves the chain invariant. -/
theorem chainInv_silent {cm cm' : CMState} (he : cm'.emitted = cm.emitted)
    (hs : cm'.state = cm.state) (h : chainInv cm = true) : chainInv cm' = true := by
  unfold chainInv at h ⊢
  rw [he, hs]
  exact h

theorem chainInv_on_protocol_message (cm : CMState) (msg : ProtocolMessage)
    (h : chainInv cm = true) : chainInv (on_protocol_message cm msg).1 = true := by
  unfold on_protocol_message disposeTransport
  dsimp only
  repeat' split
  all_goals dsimp only
  all_goals first
    | exact h
    | exact chainInv_silent rfl rfl h
    | exact chainInv_enact _ _ _ (chainInv_silent rfl rfl h)
    | exact chainInv_silent rfl rfl (chainInv_enact _ _ _ h)
    | exact chainInv_silent rfl rfl (chainInv_enact _ _ _ (chainInv_silent rfl rfl h))
    | exact chainInv_enact _ _ _ (chainInv_silent rfl rfl (chainInv_silent rfl rfl h))
    | exact chainInv_silent rfl rfl (chainInv_silent rfl rfl (chainInv_enact _ _ _ h))
    | exact chainInv_silent rfl rfl (chainInv_silent rfl rfl h)

theorem chainInv_try_connect (cm : CMState) (h : chainInv cm = true) :
    chainInv (try_connect cm) = true :=
  chainInv_silent rfl rfl h

theorem chainInv_connect_call (cm : CMState) (h : chainInv cm = true) :
    chainInv (connect_call cm) = true := by
  unfold connect_call try_connect
  split
  · exact chainInv_silent rfl rfl h
  · exact h

theorem chainInv_connect_impl (cm : CMState) (w : WaitForResult) (h : chainInv cm = true) :
    chainInv (connect_impl cm w).1 = true := by
  unfold connect_impl disposeTransport
  try dsimp only
  repeat' split
  all_goals try dsimp only
  all_goals first
    | exact chainInv_silent rfl rfl h
    | exact chainInv_enact _ _ _ (chainInv_silent rfl rfl h)
    | exact chainInv_silent rfl rfl (chainInv_enact _ _ _ (chainInv_silent rfl rfl h))
    | exact chainInv_silent rfl rfl
        (chainInv_silent rfl rfl (chainInv_enact _ _ _ (chainInv_silent rfl rfl h)))

theorem chainInv_connect_task (cm : CMState) (ea : AwaitOutcome) (w : WaitForResult)
    (h : chainInv cm = true) : chainInv (_connect cm ea w).1 = true := by
  unfold _connect
  try dsimp only
  repeat' split
  all_goals try dsimp only
  all_goals first
    | exact h
    | exact chainInv_silent rfl rfl h
    | exact chainInv_connect_impl _ _ (chainInv_enact _ _ _ h)

theorem chainInv_on_connection_attempt_done (cm : CMState) (t : TaskResult)
    (h : chainInv cm = true) : chainInv (on_connection_attempt_done cm t).1 = true := by
  unfold on_connection_attempt_done scheduleRetry
  try dsimp only
  repeat' split
  all_goals try dsimp only
  all_goals first
    | exact h
    | exact chainInv_silent rfl rfl h
    | exact chainInv_enact _ _ _ h
    | exact chainInv_enact _ _ _ (chainInv_silent rfl rfl h)
    | exact chainInv_silent rfl rfl (chainInv_enact _ _ _ h)
    | exact chainInv_silent rfl rfl (chainInv_enact _ _ _ (chainInv_silent rfl rfl h))

theorem chainInv_retry (cm : CMState) (h : chainInv cm = true) :
    chainInv (retry_connection_attempt cm).2 = true :=
  chainInv_silent rfl rfl h

theorem chainInv_ping_sync (cm : CMState) (newId : Nat) (h : chainInv cm = true) :
    chainInv (ping_sync cm newId).1 = true := by
  unfold ping_sync
  try dsimp only
  repeat' split
  all_goals try dsimp only
  all_goals first
    | exact h
    | exact chainInv_silent rfl rfl h
    | exact chainInv_silent rfl rfl (chainInv_silent rfl rfl h)

theorem chainInv_close_await_handshake (cm : CMState) (f : Option ProtocolMessage)
    (h : chainInv cm = true) : chainInv (close_await_handshake cm f).1 = true := by
  unfold close_await_handshake
  cases f with
  | none =>
    try dsimp only
    repeat' split
    all_goals try dsimp only
    all_goals first
      | exact h
      | exact chainInv_silent rfl rfl h
  | some msg =>
    try dsimp only
    repeat' split
    all_goals try dsimp only
    all_goals first
      | exact chainInv_on_protocol_message _ _ h
      | exact chainInv_silent rfl rfl (chainInv_on_protocol_message _ _ h)

set_option maxHeartbeats 2000000 in
theorem chainInv_close (cm : CMState) (ca : AwaitOutcome) (f : Option ProtocolMessage)
    (h : chainInv cm = true) : chainInv (close_fn cm ca f).1 = true := by
  unfold close_fn
  try dsimp only
  repeat' split
  all_goals try dsimp only
  all_goals first
    | exact h
    | exact chainInv_silent rfl rfl h
    | exact chainInv_enact _ _ _ h
    | exact chainInv_enact _ _ _ (chainInv_silent rfl rfl h)
    | exact chainInv_silent rfl rfl (chainInv_enact _ _ _ h)
    | exact chainInv_enact _ _ _ (chainInv_silent rfl rfl (chainInv_enact _ _ _ h))
    | exact chainInv_close_await_handshake _ _
        (chainInv_silent rfl rfl (chainInv_enact _ _ _ h))
    | exact chainInv_enact _ _ _ (chainInv_close_await_handshake _ _
        (chainInv_silent rfl rfl (chainInv_enact _ _ _ h)))

/-- One external trigger handled by the manager, under arbitrary
await/timeout oracles: an inbound protocol frame, a `connect()` call's
synchronous prefix, a run of the `_connect` task, the attempt's
done-callback, a fired retry timer, a `ping()` call's synchronous
prefix, or a `close()` call. -/
inductive Step : CMState → CMState → Prop
  | protocol (cm : CMState) (msg : ProtocolMessage) : Step cm (on_protocol_message cm msg).1
  | connectCall (cm : CMState) : Step cm (connect_call cm)
  | connectTask (cm : CMState) (ea : AwaitOutcome) (w : WaitForResult) :
      Step cm (_connect cm ea w).1
  | attemptDone (cm : CMState) (t : TaskResult) : Step cm (on_connection_attempt_done cm t).1
  | retryFired (cm : CMState) : Step cm (retry_connection_attempt cm).2
  | pingCall (cm : CMState) (newId : Nat) : Step cm (ping_sync cm newId).1
  | closeCall (cm : CMState) (ca : AwaitOutcome) (f : Option ProtocolMessage) :
      Step cm (close_fn cm ca f).1

/-- Manager states reachable from `__init__` by any sequence of
triggers. -/
def Reachable (opts : Options) (initial_state : ConnectionState) (cm : CMState) : Prop :=
  Relation.ReflTransGen Step (cm_init opts initial_state) cm

theorem chainInv_step {cm cm' : CMState} (s : Step cm cm') (h : chainInv cm = true) :
    chainInv cm' = true := by
  cases s with
  | protocol msg => exact chainInv_on_protocol_message cm msg h
  | connectCall => exact chainInv_connect_call cm h
  | connectTask ea w => exact chainInv_connect_task cm ea w h
  | attemptDone t => exact chainInv_on_connection_attempt_done cm t h
  | retryFired => exact chainInv_retry cm h
  | pingCall newId => exact chainInv_ping_sync cm newId h
  | closeCall ca f => exact chainInv_close cm ca f h

theorem chainInv_init (opts : Options) (s0 : ConnectionState) :
    chainInv (cm_init opts s0) = true := rfl

theorem chainInv_reachable {opts : Options} {s0 : ConnectionState} {cm : CMState}
    (h : Reachable opts s0 cm) : chainInv cm = true := by
  induction h with
  | refl => exact chainInv_init opts s0
  | tail _ hstep ih => exact chainInv_step hstep ih

/-! ## Concrete fixtures -/

def defaultOpts : Options :=
  { realtime_request_timeout := 10000, disconnected_retry_timeout := 15000, auto_connect := true }

def connectedMsg : ProtocolMessage := { action := PMAction.connected }

def closedMsg : ProtocolMessage := { action := PMAction.closed }

/-! ## Claims -/

/-- Claim C8 (confirmed): for every reachable state of one manager
instance, the emitted `ConnectionStateChange` sequence has no gaps —
each event's `previous` equals the immediately preceding event's
`current` — because every transition goes through the single mutation
point `enact_state_change`. -/
theorem C8_state_changes_chain (opts : Options) (s0 : ConnectionState) (cm : CMState)
    (h : Reachable opts s0 cm) : chainedB cm.emitted = true := by
  have hinv := chainInv_reachable h
  unfold chainInv at hinv
  exact (Bool.and_eq_true _ _ |>.mp hinv).1

/-- Witness for C8: a concrete three-step run (connect call, attempt
task, `connected` frame) has a chained emitted trace. -/
theorem C8_witness :
    chainedB ((on_protocol_message
      ((_connect (connect_call (cm_init defaultOpts ConnectionState.initialized))
        AwaitOutcome.ok WaitForResult.resolvedOk).1) connectedMsg).1).emitted = true :=
  C8_state_changes_chain defaultOpts ConnectionState.initialized _
    (Relation.ReflTransGen.tail
      (Relation.ReflTransGen.tail
        (Relation.ReflTransGen.single (Step.connectCall _))
        (Step.connectTask _ AwaitOutcome.ok WaitForResult.resolvedOk))
      (Step.protocol _ connectedMsg))

/-- Claim C10 (confirmed): a `closed` frame delivered while no close
pending-operation exists makes the handler raise — `AttributeError`
from `None.set_result(None)` — instead of ignoring the frame. -/
theorem C10_closed_frame_without_pending_close (cm : CMState)
    (h : cm.closedFuture = none) :
    (on_protocol_message cm closedMsg).2 = some PyError.attributeError := by
  unfold on_protocol_message disposeTransport
  cases htr : cm.transport <;> simp [closedMsg, h, htr]

/-- Witness for C10 at the freshly initialized manager. -/
theorem C10_witness :
    (on_protocol_message (cm_init defaultOpts ConnectionState.initialized) closedMsg).2 =
      some PyError.attributeError :=
  C10_closed_frame_without_pending_close _ rfl

/-- Claim C7 (confirmed): `ping()` called with no outstanding ping while
the state is neither `connected` nor `connecting` raises the
invalid-state `AblyException` synchronously (before any await), sends no
heartbeat frame, and changes neither the state nor the emitted trace. -/
theorem C7_ping_invalid_state (cm : CMState) (i : Nat)
    (hp : cm.pingFuture = none)
    (h1 : cm.state ≠ ConnectionState.connected)
    (h2 : cm.state ≠ ConnectionState.connecting) :
    ping_sync cm i =
      ({ cm with pingFuture := some FutureState.pending },
        PingBranch.invalidState pingInvalidStateError) ∧
    (ping_sync cm i).1.sentFrames = cm.sentFrames ∧
    (ping_sync cm i).1.state = cm.state ∧
    (ping_sync cm i).1.emitted = cm.emitted := by
  have hmain : ping_sync cm i =
      ({ cm with pingFuture := some FutureState.pending },
        PingBranch.invalidState pingInvalidStateError) := by
    unfold ping_sync
    rw [hp]
    simp [h1, h2]
  refine ⟨hmain, ?_, ?_, ?_⟩ <;> rw [hmain]

/-- Witness for C7 at the freshly initialized manager. -/
theorem C7_witness :
    ping_sync (cm_init defaultOpts ConnectionState.initialized) 7 =
      ({ cm_init defaultOpts ConnectionState.initialized with
          pingFuture := some FutureState.pending },
        PingBranch.invalidState pingInvalidStateError) :=
  (C7_ping_invalid_state (cm_init defaultOpts ConnectionState.initialized) 7 rfl
    (by decide) (by decide)).1

/-- Claim C9 (confirmed): after `ping()` raises the invalid-state error
the ping future field is left set (the assignment precedes the state
check), so every later `ping()` call takes the already-outstanding
branch and awaits that same operation instead of re-checking the state
or raising again. -/
theorem C9_ping_future_left_set (cm : CMState) (i : Nat)
    (hp : cm.pingFuture = none)
    (h1 : cm.state ≠ ConnectionState.connected)
    (h2 : cm.state ≠ ConnectionState.connecting) :
    (ping_sync cm i).1.pingFuture = some FutureState.pending ∧
    ∀ j, ping_sync (ping_sync cm i).1 j = ((ping_sync cm i).1, PingBranch.awaitExisting) := by
  have hmain : ping_sync cm i =
      ({ cm with pingFuture := some FutureState.pending },
        PingBranch.invalidState pingInvalidStateError) := by
    unfold ping_sync
    rw [hp]
    simp [h1, h2]
  rw [hmain]
  exact ⟨rfl, fun j => rfl⟩

/-- Witness for C9: the failed first ping leaves the future set and a
second ping joins it. -/
theorem C9_witness :
    (ping_sync (cm_init defaultOpts ConnectionState.initialized) 7).1.pingFuture =
        some FutureState.pending ∧
    ping_sync (ping_sync (cm_init defaultOpts ConnectionState.initialized) 7).1 9 =
      ((ping_sync (cm_init defaultOpts ConnectionState.initialized) 7).1,
        PingBranch.awaitExisting) := by
  have h := C9_ping_future_left_set (cm_init defaultOpts ConnectionState.initialized) 7 rfl
    (by decide) (by decide)
  exact ⟨h.1, h.2 9⟩

/-- Fatal error frame with the given message / statusCode / code. -/
def fatalErrorMsg (m : String) (s c : Nat) : ProtocolMessage :=
  { action := PMAction.error, error := some { message := m, statusCode := s, code := c, nonfatal := false } }

/-- Claim C3 (confirmed): a fatal `error` frame (`nonfatal` false)
received while `connecting` with a pending connect operation and a live
transport transitions the state to `failed` carrying the
`AblyAuthException` built from the frame's fields, fails and clears the
connect pending-operation with that error, disposes the transport, and
re-raises the error; the attempt's done-callback then sees the terminal
`failed` state and schedules no retry. -/
theorem C3_fatal_error_while_connecting (cm : CMState) (t : Transport) (m : String) (s c : Nat)
    (hs : cm.state = ConnectionState.connecting)
    (hf : cm.connectedFuture = some FutureState.pending)
    (ht : cm.transport = some t) :
    (on_protocol_message cm (fatalErrorMsg m s c)).2 =
      some (PyError.ably { message := m, statusCode := s, code := c, isAuth := true }) ∧
    (on_protocol_message cm (fatalErrorMsg m s c)).1.state = ConnectionState.failed ∧
    (on_protocol_message cm (fatalErrorMsg m s c)).1.emitted = cm.emitted ++
      [⟨ConnectionState.connecting, ConnectionState.failed,
        some (PyError.ably { message := m, statusCode := s, code := c, isAuth := true })⟩] ∧
    (on_protocol_message cm (fatalErrorMsg m s c)).1.connectedFuture = none ∧
    (on_protocol_message cm (fatalErrorMsg m s c)).1.connectResolutions =
      cm.connectResolutions ++
        [some (PyError.ably { message := m, statusCode := s, code := c, isAuth := true })] ∧
    (on_protocol_message cm (fatalErrorMsg m s c)).1.transport =
      some { t with disposed := true } ∧
    (∀ e', on_connection_attempt_done (on_protocol_message cm (fatalErrorMsg m s c)).1
      (TaskResult.exc e') = ((on_protocol_message cm (fatalErrorMsg m s c)).1, none)) ∧
    (∀ e', (on_connection_attempt_done (on_protocol_message cm (fatalErrorMsg m s c)).1
      (TaskResult.exc e')).1.retriesScheduled = cm.retriesScheduled) := by
  have hmsg : on_protocol_message cm (fatalErrorMsg m s c) =
      ({ enact_state_change cm ConnectionState.failed
          (some (PyError.ably { message := m, statusCode := s, code := c, isAuth := true })) with
          connectedFuture := none
          connectResolutions := cm.connectResolutions ++
            [some (PyError.ably { message := m, statusCode := s, code := c, isAuth := true })]
          transport := some { t with disposed := true } },
        some (PyError.ably { message := m, statusCode := s, code := c, isAuth := true })) := by
    unfold on_protocol_message disposeTransport
    simp [fatalErrorMsg, hf, ht, FutureState.set_exception, enact_state_change]
  have hdone : ∀ e', on_connection_attempt_done (on_protocol_message cm (fatalErrorMsg m s c)).1
      (TaskResult.exc e') = ((on_protocol_message cm (fatalErrorMsg m s c)).1, none) := by
    intro e'
    rw [hmsg]
    unfold on_connection_attempt_done
    simp [enact_state_change]
  refine ⟨?_, ?_, ?_, ?_, ?_, ?_, hdone, fun e' => ?_⟩
  all_goals try rw [hdone e']
  all_goals rw [hmsg]
  all_goals try rfl
  all_goals simp [enact_state_change, hs]

def cmC3 : CMState :=
  { cm_init defaultOpts ConnectionState.connecting with
      transport := some { isConnected := false, disposed := false, wsConnectTask := false } }

/-- Witness for C3 at a concrete connecting manager with a live
transport. -/
theorem C3_witness :
    (on_protocol_message cmC3 (fatalErrorMsg "auth failed" 401 40140)).2 =
      some (PyError.ably
        { message := "auth failed", statusCode := 401, code := 40140, isAuth := true }) ∧
    (on_protocol_message cmC3 (fatalErrorMsg "auth failed" 401 40140)).1.state =
      ConnectionState.failed := by
  have h := C3_fatal_error_while_connecting cmC3
    { isConnected := false, disposed := false, wsConnectTask := false }
    "auth failed" 401 40140 rfl rfl rfl
  exact ⟨h.1, h.2.1⟩

/-- Claim C4 (confirmed): a connect attempt whose `connected` frame
never arrives within `realtime_request_timeout` transitions to
`disconnected` carrying the timeout error, disposes the transport
handle (the handle is disposed but, due to the `tranpsort` typo, not
cleared), fails the connect pending-operation with the same error,
re-raises the error to the attempt's caller, and the done-callback then
schedules the retry, which sleeps `disconnected_retry_timeout / 1000`
seconds and launches a new attempt task. -/
theorem C4_connect_attempt_timeout (cm : CMState)
    (hs : cm.state = ConnectionState.connecting)
    (hf : cm.connectedFuture = some FutureState.pending) :
    (connect_impl cm WaitForResult.timedOut).2 = some (PyError.ably connectTimeoutError) ∧
    (connect_impl cm WaitForResult.timedOut).1.state = ConnectionState.disconnected ∧
    (connect_impl cm WaitForResult.timedOut).1.emitted = cm.emitted ++
      [⟨ConnectionState.connecting, ConnectionState.disconnected,
        some (PyError.ably connectTimeoutError)⟩] ∧
    (connect_impl cm WaitForResult.timedOut).1.transport =
      some { isConnected := false, disposed := true, wsConnectTask := false } ∧
    (connect_impl cm WaitForResult.timedOut).1.connectedFuture =
      some (FutureState.exception (PyError.ably connectTimeoutError)) ∧
    (connect_impl cm WaitForResult.timedOut).1.connectResolutions =
      cm.connectResolutions ++ [some (PyError.ably connectTimeoutError)] ∧
    on_connection_attempt_done (connect_impl cm WaitForResult.timedOut).1
        (TaskResult.exc (PyError.ably connectTimeoutError)) =
      (scheduleRetry (connect_impl cm WaitForResult.timedOut).1, none) ∧
    (scheduleRetry (connect_impl cm WaitForResult.timedOut).1).retriesScheduled =
      cm.retriesScheduled + 1 ∧
    (retry_connection_attempt (scheduleRetry (connect_impl cm WaitForResult.timedOut).1)).1 =
      cm.options.disconnected_retry_timeout / 1000 ∧
    (retry_connection_attempt
        (scheduleRetry (connect_impl cm WaitForResult.timedOut).1)).2.attemptTasks =
      (connect_impl cm WaitForResult.timedOut).1.attemptTasks + 1 := by
  have hmain : connect_impl cm WaitForResult.timedOut =
      ({ cm with
          transport := some { isConnected := false, disposed := true, wsConnectTask := false }
          transportConnects := cm.transportConnects + 1
          state := ConnectionState.disconnected
          emitted := cm.emitted ++
            [⟨cm.state, ConnectionState.disconnected, some (PyError.ably connectTimeoutError)⟩]
          connectedFuture := some (FutureState.exception (PyError.ably connectTimeoutError))
          connectResolutions := cm.connectResolutions ++ [some (PyError.ably connectTimeoutError)] },
        some (PyError.ably connectTimeoutError)) := by
    unfold connect_impl disposeTransport
    simp [hf, FutureState.set_exception, enact_state_change]
  have hdone : on_connection_attempt_done (connect_impl cm WaitForResult.timedOut).1
      (TaskResult.exc (PyError.ably connectTimeoutError)) =
      (scheduleRetry (connect_impl cm WaitForResult.timedOut).1, none) := by
    rw [hmain]
    unfold on_connection_attempt_done
    simp
  refine ⟨?_, ?_, ?_, ?_, ?_, ?_, hdone, ?_, ?_, ?_⟩
  all_goals rw [hmain]
  all_goals try rfl
  all_goals simp [enact_state_change, scheduleRetry, retry_connection_attempt, try_connect, hs]

def cmC4 : CMState :=
  enact_state_change (connect_call (cm_init defaultOpts ConnectionState.initialized))
    ConnectionState.connecting none

/-- Witness for C4: the first attempt launched by `connect()` from the
initialized manager (after `_connect`'s transition to `connecting`),
timing out; the retry then sleeps 15 seconds (15000 ms / 1000). -/
theorem C4_witness :
    (connect_impl cmC4 WaitForResult.timedOut).2 = some (PyError.ably connectTimeoutError) ∧
    (connect_impl cmC4 WaitForResult.timedOut).1.state = ConnectionState.disconnected ∧
    (retry_connection_attempt
        (scheduleRetry (connect_impl cmC4 WaitForResult.timedOut).1)).1 = 15 := by
  have h := C4_connect_attempt_timeout cmC4 rfl rfl
  refine ⟨h.1, h.2.1, ?_⟩
  rw [h.2.2.2.2.2.2.2.2.1]
  show (15000 : Rat) / 1000 = 15
  norm_num

/-- connect() while a connect future already exists creates nothing: it
only awaits the existing future. -/
theorem connect_call_joiner (cm : CMState) (h : cm.connectedFuture ≠ none) :
    connect_call cm = cm := by
  unfold connect_call
  simp [Option.isNone_iff_eq_none, h]

/-- Any number of connect() calls while a connect future exists leave
the manager untouched. -/
theorem connect_calls_stable (n : Nat) (cm : CMState) (h : cm.connectedFuture ≠ none) :
    connect_calls n cm = cm := by
  induction n with
  | zero => rfl
  | succ n ih =>
    show connect_calls n (connect_call cm) = cm
    rw [connect_call_joiner cm h]
    exact ih

/-- Claim C5 (confirmed): with no connect pending-operation, the first
`connect()` creates the single pending operation and launches exactly
one attempt task; any further `connect()` calls are no-ops that leave
that same operation in place (so all callers await the same future and
observe its one resolution), and the single task triggers exactly one
transport connect. -/
theorem C5_connect_single_attempt (cm : CMState) (n : Nat)
    (h : cm.connectedFuture = none) :
    ((connect_call cm).connectedFuture = some FutureState.pending ∧
      (connect_call cm).attemptTasks = cm.attemptTasks + 1) ∧
    connect_calls (n + 1) cm = connect_call cm ∧
    (∀ (cmJ : CMState) (k : Nat), cmJ.connectedFuture ≠ none → connect_calls k cmJ = cmJ) ∧
    (∀ ea w, cm.state ≠ ConnectionState.connected → cm.state ≠ ConnectionState.connecting →
      (_connect (connect_call cm) ea w).1.transportConnects = cm.transportConnects + 1) := by
  have hcc : connect_call cm = try_connect { cm with connectedFuture := some .pending } := by
    unfold connect_call
    simp [h]
  refine ⟨⟨?_, ?_⟩, ?_, fun cmJ k hk => connect_calls_stable k cmJ hk, fun ea w h1 h2 => ?_⟩
  · rw [hcc]; rfl
  · rw [hcc]; rfl
  · show connect_calls n (connect_call cm) = connect_call cm
    refine connect_calls_stable n _ ?_
    rw [hcc]
    intro hcontra
    exact Option.noConfusion hcontra
  · rw [hcc]
    unfold _connect
    rw [if_neg, if_neg]
    · unfold connect_impl
      cases w <;> rfl
    · exact h2
    · exact h1

/-- Witness for C5: three connect() calls from the initialized manager
collapse to the first, which launches one task; that task performs one
transport-connect trigger. -/
theorem C5_witness :
    (connect_call (cm_init defaultOpts ConnectionState.initialized)).attemptTasks = 1 ∧
    connect_calls 3 (cm_init defaultOpts ConnectionState.initialized) =
      connect_call (cm_init defaultOpts ConnectionState.initialized) ∧
    (_connect (connect_call (cm_init defaultOpts ConnectionState.initialized))
        AwaitOutcome.ok WaitForResult.resolvedOk).1.transportConnects = 1 := by
  have h := C5_connect_single_attempt (cm_init defaultOpts ConnectionState.initialized) 2 rfl
  exact ⟨h.1.2, h.2.1,
    h.2.2.2 AwaitOutcome.ok WaitForResult.resolvedOk (by decide) (by decide)⟩

/-- The connected manager used in the C1 close scenarios: state
`connected` with a live transport that reports itself connected. -/
def cmC1 : CMState :=
  { cm_init defaultOpts ConnectionState.initialized with
      state := ConnectionState.connected
      transport := some { isConnected := true, disposed := false, wsConnectTask := false } }

/-- Counterexample to C1 as stated: from `connected` with a live
connected transport and no `closed` frame before the deadline, `close()`
does raise the close-timeout error, but the final state is `closing`,
not `closed` — the `raise` skips the trailing
`enact_state_change(CLOSED)`. -/
theorem C1_counterexample :
    (close_fn cmC1 AwaitOutcome.ok none).2 = some (PyError.ably closeTimeoutError) ∧
    (close_fn cmC1 AwaitOutcome.ok none).1.state = ConnectionState.closing ∧
    ¬ (close_fn cmC1 AwaitOutcome.ok none).1.state = ConnectionState.closed := by
  refine ⟨rfl, rfl, ?_⟩
  intro hcontra
  simp [close_fn, cmC1, cm_init, defaultOpts, close_connecting_wait, close_await_handshake,
    enact_state_change] at hcontra

/-- Claim C1 (corrected): from `connected` with a live connected
transport, if no `closed` frame arrives within
`realtime_request_timeout` the `close()` call raises the close-timeout
`AblyException` and the state remains `closing` (the final transition to
`closed` is skipped by the raise); if the `closed` frame arrives within
the bound, `close()` completes without a timeout error and the state
ends `closed`, with the `closing` and `closed` transitions emitted in
order. -/
theorem C1_close_timeout_behaviour (cm : CMState) (t : Transport)
    (hs : cm.state = ConnectionState.connected)
    (ht : cm.transport = some t)
    (hc : t.isConnected = true) :
    ((close_fn cm AwaitOutcome.ok none).2 = some (PyError.ably closeTimeoutError) ∧
      (close_fn cm AwaitOutcome.ok none).1.state = ConnectionState.closing) ∧
    ((close_fn cm AwaitOutcome.ok (some closedMsg)).2 = none ∧
      (close_fn cm AwaitOutcome.ok (some closedMsg)).1.state = ConnectionState.closed ∧
      (close_fn cm AwaitOutcome.ok (some closedMsg)).1.emitted = cm.emitted ++
        [⟨ConnectionState.connected, ConnectionState.closing, none⟩,
         ⟨ConnectionState.closing, ConnectionState.closed, none⟩]) := by
  obtain ⟨opts, st, cf, clf, pf, pid, tr, em, ta, tc, rs, sf, cr, fw⟩ := cm
  obtain ⟨tic, td, tw⟩ := t
  simp only at hs ht hc
  subst hs ht hc
  refine ⟨⟨rfl, rfl⟩, rfl, rfl, ?_⟩
  simp [close_fn, close_connecting_wait, close_await_handshake, on_protocol_message,
    disposeTransport, enact_state_change, closedMsg, FutureState.set_result]

/-- Witness for C1 (amended): at the concrete connected manager the
in-time `closed` frame branch completes without error in state
`closed`. -/
theorem C1_witness :
    (close_fn cmC1 AwaitOutcome.ok (some closedMsg)).2 = none ∧
    (close_fn cmC1 AwaitOutcome.ok (some closedMsg)).1.state = ConnectionState.closed := by
  have h := C1_close_timeout_behaviour cmC1
    { isConnected := true, disposed := false, wsConnectTask := false } rfl rfl rfl
  exact ⟨h.2.1, h.2.2.1⟩

/-- A manager that reached `closed` while a disconnected-retry timer was
still pending, built by running the code: `connect()` from
`initialized`, the attempt times out (`disconnected`, retry scheduled by
the done-callback), then `close()` completes from `disconnected`. -/
def cmC2closed : CMState :=
  (close_fn
    (on_connection_attempt_done
      (_connect (connect_call (cm_init defaultOpts ConnectionState.initialized))
        AwaitOutcome.ok WaitForResult.timedOut).1
      (TaskResult.exc (PyError.ably connectTimeoutError))).1
    AwaitOutcome.ok none).1

/-- Claim C2 (code_bug): the attempt algorithm `_connect` checks only
`connected` and `connecting` at its top, so the retry scheduled before
`close()` fires against the `closed` state and is NOT a no-op: it
transitions `closed → connecting` and launches a new transport connect —
contradicting `Connection.close`'s own docstring ("Once closed, the
library will not attempt to re-establish the connection without an
explicit call to connect()").  The await oracle passed to the fired
attempt is the realistic one: the stale connect future still holds the
timeout exception, so its await re-raises immediately. -/
theorem C2_retry_after_close_restarts_connection :
    cmC2closed.state = ConnectionState.closed ∧
    cmC2closed.retriesScheduled = 1 ∧
    (_connect (retry_connection_attempt cmC2closed).2 AwaitOutcome.ok
      (WaitForResult.resolvedExc (PyError.ably connectTimeoutError))).1.state =
        ConnectionState.connecting ∧
    (_connect (retry_connection_attempt cmC2closed).2 AwaitOutcome.ok
      (WaitForResult.resolvedExc (PyError.ably connectTimeoutError))).1.transportConnects =
        cmC2closed.transportConnects + 1 ∧
    (_connect (retry_connection_attempt cmC2closed).2 AwaitOutcome.ok
      (WaitForResult.resolvedExc (PyError.ably connectTimeoutError))).1.emitted =
        cmC2closed.emitted ++
          [⟨ConnectionState.closed, ConnectionState.connecting, none⟩] := by
  refine ⟨rfl, rfl, rfl, rfl, ?_⟩
  decide

/-- The manager right after a timed-out first connect attempt: the
connect future still holds the timeout exception (the timeout path never
clears the field), the transport handle is disposed but still set (the
`tranpsort` typo). -/
def cmC6 : CMState :=
  (_connect (connect_call (cm_init defaultOpts ConnectionState.initialized))
    AwaitOutcome.ok WaitForResult.timedOut).1

/-- Counterexample to C6 as stated: a late `connected` frame after the
connect timeout is a second resolution attempt on the already-resolved
connect operation, and it raises `InvalidStateError` (the code guards
only against cancelled futures), not a no-op. -/
theorem C6_counterexample :
    (on_protocol_message cmC6 connectedMsg).2 = some PyError.invalidState := by
  decide

/-- Claim C6 (corrected): a second resolution attempt is a no-op only
when the pending operation was cancelled (the `cancelled()` guards on
the connect and ping futures); a resolution attempt on an operation
already resolved with a result or an exception raises
`InvalidStateError` — e.g. a `connected` frame arriving after the
connect attempt timed out. -/
theorem C6_second_resolution (cm : CMState) (e : PyError) :
    (cm.connectedFuture = some FutureState.cancelled →
      (on_protocol_message cm connectedMsg).2 = none) ∧
    (cm.connectedFuture = some (FutureState.exception e) →
      (on_protocol_message cm connectedMsg).2 = some PyError.invalidState) ∧
    (cm.connectedFuture = some FutureState.result →
      (on_protocol_message cm connectedMsg).2 = some PyError.invalidState) ∧
    (∀ pid, cm.pingFuture = some FutureState.cancelled → cm.pingId = some pid →
      (on_protocol_message cm (heartbeatMsg pid)).2 = none) := by
  refine ⟨fun h => ?_, fun h => ?_, fun h => ?_, fun pid hp hid => ?_⟩
  · unfold on_protocol_message
    cases htr : cm.transport <;>
      simp [connectedMsg, h, htr, FutureState.isCancelled, FutureState.set_result]
  · unfold on_protocol_message
    cases htr : cm.transport <;>
      simp [connectedMsg, h, htr, FutureState.isCancelled, FutureState.set_result]
  · unfold on_protocol_message
    cases htr : cm.transport <;>
      simp [connectedMsg, h, htr, FutureState.isCancelled, FutureState.set_result]
  · unfold on_protocol_message
    simp [heartbeatMsg, hp, hid, FutureState.isCancelled]

/-- Witness for C6 (amended): a cancelled connect future is silently
cleared by a `connected` frame; the exception-resolved one of `cmC6`
raises `InvalidStateError`. -/
theorem C6_witness :
    (on_protocol_message { cm_init defaultOpts ConnectionState.initialized with
        connectedFuture := some FutureState.cancelled } connectedMsg).2 = none ∧
    (on_protocol_message cmC6 connectedMsg).2 = some PyError.invalidState := by
  refine ⟨(C6_second_resolution _ PyError.invalidState).1 rfl, ?_⟩
  exact (C6_second_resolution cmC6 (PyError.ably connectTimeoutError)).2.1 (by decide)
